import Mathlib

/-!
Shallow embedding of the NivoAdventure platformer core (utils.js, player.js,
the Enemy and Camera classes of input.js, and the Platform / Collectible /
Game / Level classes of the unnamed main script), together with theorems
settling the frozen claims about its specification.

Numbers are modelled by `ℚ` (the code only ever adds, subtracts, multiplies,
divides, compares, clamps and floors its floating-point values on the paths
relevant here).  Wall-clock reads (`getTimestamp()`) are modelled by an
explicit `now : ℚ` parameter.  Rendering, audio playback, particles, camera
shake and input wiring are external effects with no bearing on the modelled
state and are noted in comments where the source performs them.
-/

/-- Axis-aligned rectangle `{x, y, width, height}` as used uniformly by the
game's entities (utils.js and every entity's `getRect`). -/
structure Rect where
  x : ℚ
  y : ℚ
  width : ℚ
  height : ℚ
  deriving DecidableEq, Repr

/-- Embedding of `checkCollision(rect1, rect2)` from utils.js: strict
inequalities on all four edge comparisons. -/
def checkCollision (rect1 rect2 : Rect) : Bool :=
  decide (rect1.x < rect2.x + rect2.width) &&
  decide (rect1.x + rect1.width > rect2.x) &&
  decide (rect1.y < rect2.y + rect2.height) &&
  decide (rect1.y + rect1.height > rect2.y)

/-- Embedding of `clamp(value, min, max)` from utils.js. -/
def clamp (value lo hi : ℚ) : ℚ :=
  min (max value lo) hi

/-- Embedding of `lerp(start, end, factor)` from utils.js. -/
def lerp (s e factor : ℚ) : ℚ :=
  s + (e - s) * factor

/-- Embedding of JavaScript `Math.sign` on rationals. -/
def jsSign (q : ℚ) : ℚ :=
  if q > 0 then 1 else if q < 0 then -1 else 0

/-- State of the `Player` class (player.js).  Animation bookkeeping
(`animationFrame`, `animationTimer`, `currentAnimation`), the input
snapshot and the sprite constants are omitted: no claim reads them and
they feed only rendering and input wiring. -/
structure Player where
  x : ℚ
  y : ℚ
  width : ℚ
  height : ℚ
  velocityX : ℚ
  velocityY : ℚ
  isGrounded : Bool
  canDoubleJump : Bool
  hasDoubleJumped : Bool
  maxHealth : ℚ
  health : ℚ
  invulnerable : Bool
  invulnerabilityTime : ℚ
  lastDamageTime : ℚ
  checkpointX : ℚ
  checkpointY : ℚ
  lastCheckpointHealth : ℚ
  deriving DecidableEq, Repr

namespace Player

/-- Embedding of the `Player` constructor's fields (player.js `constructor`):
width 32, height 48, maxHealth 100, invulnerabilityTime 1000 ms. -/
def init (x y : ℚ) : Player :=
  { x := x, y := y, width := 32, height := 48
    velocityX := 0, velocityY := 0
    isGrounded := false, canDoubleJump := false, hasDoubleJumped := false
    maxHealth := 100, health := 100
    invulnerable := false, invulnerabilityTime := 1000, lastDamageTime := 0
    checkpointX := x, checkpointY := y, lastCheckpointHealth := 100 }

/-- Collision rectangle of the player (`getRect()` in player.js). -/
def rect (p : Player) : Rect :=
  { x := p.x, y := p.y, width := p.width, height := p.height }

/-- Embedding of `Player.takeDamage(damage)` (player.js).  `now` stands for
the `getTimestamp()` read.  Returns the updated player and the boolean the
method returns.  The `audioManager.play('hit', 0.7)` call is an external
effect. -/
def takeDamage (p : Player) (damage : ℚ) (now : ℚ) : Player × Bool :=
  if p.invulnerable then (p, false)
  else
    let h := max 0 (p.health - damage)
    if h > 0 then
      ({ p with health := h, invulnerable := true, lastDamageTime := now }, true)
    else
      ({ p with health := h }, true)

/-- Embedding of `Player.heal(amount)` (player.js). -/
def heal (p : Player) (amount : ℚ) : Player :=
  { p with health := min p.maxHealth (p.health + amount) }

/-- Embedding of `Player.isDead()` (player.js): health ≤ 0. -/
def isDead (p : Player) : Bool :=
  decide (p.health ≤ 0)

/-- Embedding of `Player.updateInvulnerability()` (player.js); `now` stands
for the `getTimestamp()` read. -/
def updateInvulnerability (p : Player) (now : ℚ) : Player :=
  if p.invulnerable ∧ now - p.lastDamageTime ≥ p.invulnerabilityTime then
    { p with invulnerable := false }
  else p

/-- Embedding of `Player.respawn()` (player.js); `now` stands for the
`getTimestamp()` read. -/
def respawn (p : Player) (now : ℚ) : Player :=
  { p with x := p.checkpointX, y := p.checkpointY
         , velocityX := 0, velocityY := 0
         , health := p.lastCheckpointHealth
         , invulnerable := true, lastDamageTime := now
         , isGrounded := false }

end Player

/-- Behavior tag of a `Platform` (the `type` string of the main script's
`Platform` class, modelled as an inductive). -/
inductive PType where
  | static
  | moving
  | crumbling
  | bouncy
  deriving DecidableEq, Repr

/-- Axis tag for moving platforms (`moveAxis` string). -/
inductive MoveAxis where
  | horizontal
  | vertical
  deriving DecidableEq, Repr

/-- State of the `Platform` class (main script).  The decorative fields
(`color`, `texture`, `shadowOffset`) and the particle list
(`crumbleParticles`, purely visual decay particles) are omitted: no claim
reads them. -/
structure Platform where
  x : ℚ
  y : ℚ
  width : ℚ
  height : ℚ
  originalX : ℚ
  originalY : ℚ
  type : PType
  moveSpeed : ℚ
  moveDistance : ℚ
  moveDirection : ℚ
  moveAxis : MoveAxis
  crumbleTimer : ℚ
  crumbleDelay : ℚ
  isCrumbling : Bool
  isPlayerOn : Bool
  bounceForce : ℚ
  bounceAnimActive : Bool
  bounceAnimTimer : ℚ
  deriving DecidableEq, Repr

namespace Platform

/-- Embedding of the `Platform` constructor's fields: moveSpeed 1,
moveDistance 100, crumbleDelay 1000 ms, bounceForce 20. -/
def init (x y width height : ℚ) (type : PType) : Platform :=
  { x := x, y := y, width := width, height := height
    originalX := x, originalY := y, type := type
    moveSpeed := 1, moveDistance := 100, moveDirection := 1
    moveAxis := MoveAxis.horizontal
    crumbleTimer := 0, crumbleDelay := 1000
    isCrumbling := false, isPlayerOn := false
    bounceForce := 20, bounceAnimActive := false, bounceAnimTimer := 0 }

/-- Collision rectangle of the platform (`getRect()`). -/
def rect (pl : Platform) : Rect :=
  { x := pl.x, y := pl.y, width := pl.width, height := pl.height }

/-- Embedding of `Platform.providesCollision()`: true while the platform is
not crumbling. -/
def providesCollision (pl : Platform) : Bool :=
  !pl.isCrumbling

/-- Embedding of `Platform.updateCrumbling(deltaTime, player)`.  `startCrumbling()`
sets the `isCrumbling` flag and emits decorative decay particles; only the
flag is modelled. -/
def updateCrumbling (pl : Platform) (deltaTime : ℚ) (player : Option Player) : Platform :=
  let wasPlayerOn := pl.isPlayerOn
  let isOn : Bool :=
    match player with
    | some p =>
        checkCollision p.rect pl.rect &&
        decide (p.y + p.height ≤ pl.y + 10) && decide (p.velocityY ≥ 0)
    | none => false
  let pl1 := { pl with isPlayerOn := isOn }
  let pl2 :=
    if isOn && !wasPlayerOn && !pl1.isCrumbling then
      { pl1 with crumbleTimer := 0 }
    else pl1
  if isOn && !pl2.isCrumbling then
    let t := pl2.crumbleTimer + deltaTime
    if t ≥ pl2.crumbleDelay then
      { pl2 with crumbleTimer := t, isCrumbling := true }
    else
      { pl2 with crumbleTimer := t }
  else pl2

/-- Side tag returned by `Platform.handlePlayerCollision`. -/
inductive Side where
  | left
  | right
  | top
  | bottom
  deriving DecidableEq, Repr

/-- Embedding of `Platform.handlePlayerCollision(player)` (main script).
Returns the updated platform (its bounce animation state), the updated
player, and the collision side if any (`null` when the rectangles do not
overlap).  `triggerBounce()` also plays a sound, an external effect;
the returned object's `effect` field is always `null` in the source and is
not modelled. -/
def handlePlayerCollision (pl : Platform) (p : Player) : Platform × Player × Option Side :=
  if !(checkCollision pl.rect p.rect) then (pl, p, none)
  else
    let overlapX := min (p.x + p.width - pl.x) (pl.x + pl.width - p.x)
    let overlapY := min (p.y + p.height - pl.y) (pl.y + pl.height - p.y)
    if overlapX < overlapY then
      if p.x < pl.x then
        (pl, { p with x := pl.x - p.width, velocityX := 0 }, some Side.left)
      else
        (pl, { p with x := pl.x + pl.width, velocityX := 0 }, some Side.right)
    else
      if p.y < pl.y then
        let p1 := { p with y := pl.y - p.height }
        let boun :=
          if pl.type = PType.bouncy then
            ({ pl with bounceAnimActive := true, bounceAnimTimer := 0 },
             { p1 with velocityY := -pl.bounceForce })
          else
            (pl, { p1 with velocityY := 0 })
        let p2 := { boun.2 with isGrounded := true, canDoubleJump := false
                              , hasDoubleJumped := false }
        let p3 :=
          if pl.type = PType.moving ∧ pl.moveAxis = MoveAxis.horizontal then
            { p2 with x := p2.x + pl.moveDirection * pl.moveSpeed }
          else p2
        (boun.1, p3, some Side.top)
      else
        (pl, { p with y := pl.y + pl.height, velocityY := 0 }, some Side.bottom)

/-- Embedding of `Platform.reset()` (the particle list, also cleared there,
is not modelled). -/
def reset (pl : Platform) : Platform :=
  { pl with x := pl.originalX, y := pl.originalY
          , moveDirection := 1, crumbleTimer := 0
          , isCrumbling := false, isPlayerOn := false
          , bounceAnimActive := false }

end Platform

/-- Body of the `for (const platform of platforms)` loop of
`Player.handlePlatformCollisions` (player.js): guard on `checkCollision`,
then resolve along the axis of smaller overlap. -/
def Player.resolvePlatform (p : Player) (platform : Platform) : Player :=
  if checkCollision p.rect platform.rect then
    let overlapX := min (p.x + p.width - platform.x) (platform.x + platform.width - p.x)
    let overlapY := min (p.y + p.height - platform.y) (platform.y + platform.height - p.y)
    if overlapX < overlapY then
      if p.x < platform.x then
        { p with x := platform.x - p.width, velocityX := 0 }
      else
        { p with x := platform.x + platform.width, velocityX := 0 }
    else
      if p.y < platform.y then
        { p with y := platform.y - p.height, velocityY := 0
               , isGrounded := true, canDoubleJump := false, hasDoubleJumped := false }
      else
        { p with y := platform.y + platform.height, velocityY := 0 }
  else p

/-- Embedding of `Player.handlePlatformCollisions(platforms)` (player.js):
`isGrounded` is cleared, then every platform of the list is resolved in
order.  Note the source iterates over the raw platform list and never
consults `Platform.providesCollision`. -/
def Player.handlePlatformCollisions (p : Player) (platforms : List Platform) : Player :=
  platforms.foldl Player.resolvePlatform { p with isGrounded := false }

/-- State of the `Enemy` class (input.js).  Animation bookkeeping, the
patrol constants not read by the embedded methods (`patrolDistance`,
`startX`, `turnCooldown`, …) and `lastPlayerPosition` are omitted: no claim
reads them. -/
structure Enemy where
  x : ℚ
  y : ℚ
  width : ℚ
  height : ℚ
  velocityX : ℚ
  velocityY : ℚ
  detectionRange : ℚ
  isChasing : Bool
  health : ℚ
  maxHealth : ℚ
  damage : ℚ
  isAlive : Bool
  deathTimer : ℚ
  deriving DecidableEq, Repr

namespace Enemy

/-- Embedding of the `Enemy` constructor's fields (input.js): width 28,
height 32, detectionRange 150, health = maxHealth = 50, damage 20. -/
def init (x y : ℚ) : Enemy :=
  { x := x, y := y, width := 28, height := 32
    velocityX := 0, velocityY := 0
    detectionRange := 150, isChasing := false
    health := 50, maxHealth := 50, damage := 20
    isAlive := true, deathTimer := 0 }

/-- Collision rectangle of the enemy. -/
def rect (e : Enemy) : Rect :=
  { x := e.x, y := e.y, width := e.width, height := e.height }

/-- Embedding of `Enemy.die()` (input.js): clears the alive flag, freezes
horizontal velocity and restarts the death timer.  The
`audioManager.play('enemyDeath', 0.5)` call is an external effect. -/
def die (e : Enemy) : Enemy :=
  { e with isAlive := false, velocityX := 0, deathTimer := 0 }

/-- Embedding of `Enemy.takeDamage(damage)` (input.js): returns the updated
enemy and whether the enemy died from this damage. -/
def takeDamage (e : Enemy) (damage : ℚ) : Enemy × Bool :=
  if !e.isAlive then (e, false)
  else
    let h := max 0 (e.health - damage)
    if h ≤ 0 then (die { e with health := h }, true)
    else ({ e with health := h }, false)

/-- Embedding of `Enemy.checkPlayerCollision(player)` (input.js); `now`
stands for the `getTimestamp()` read inside `Player.takeDamage`.  Returns
the updated enemy, the updated player, and the boolean the method returns
(true when damage was applied to the player). -/
def checkPlayerCollision (e : Enemy) (p : Player) (now : ℚ) : Enemy × Player × Bool :=
  if !e.isAlive || p.isDead then (e, p, false)
  else if checkCollision e.rect p.rect then
    let playerBottom := p.y + p.height
    let enemyTop := e.y
    if playerBottom ≤ enemyTop + 10 ∧ p.velocityY > 0 then
      -- player jumped on enemy: kill the enemy, bounce the player up
      let e1 := (takeDamage e e.maxHealth).1
      (e1, { p with velocityY := -8 }, false)
    else
      -- enemy damages player
      let r := p.takeDamage e.damage now
      (e, r.1, r.2)
  else (e, p, false)

/-- Chase-flag portion of `Enemy.updateAI(player)` (input.js).  The
`distanceToPlayer` argument stands for the value of
`distance(centerX, centerY, playerCenterX, playerCenterY)` computed there
(a square root; the claims constrain only its comparisons against the
thresholds).  `playerGone` is true when `!player || player.isDead()`.
The `patrol()` / `chase(player)` motion side effects touch only velocity
and animation, not the chase flag. -/
def updateAIChaseFlag (e : Enemy) (playerGone : Bool) (distanceToPlayer : ℚ) : Bool :=
  if playerGone then false
  else if distanceToPlayer ≤ e.detectionRange then true
  else if e.isChasing ∧ distanceToPlayer > e.detectionRange * 1.5 then false
  else e.isChasing

/-- One `updateAI` step against a live player, restricted to the chase
flag. -/
def stepChase (e : Enemy) (distanceToPlayer : ℚ) : Enemy :=
  { e with isChasing := e.updateAIChaseFlag false distanceToPlayer }

/-- Iterated `updateAI` steps against a live player observed at the given
successive distances. -/
def stepChaseList (e : Enemy) (dists : List ℚ) : Enemy :=
  dists.foldl stepChase e

end Enemy

/-- Type tag of a `Collectible` (the `type` string of the main script's
`Collectible` class). -/
inductive CType where
  | coin
  | gem
  | health
  | star
  deriving DecidableEq, Repr

/-- Effect category reported on collection (`getCollectionEffect()`). -/
inductive Effect where
  | score
  | health
  | special
  deriving DecidableEq, Repr

/-- Collection result object returned by `Collectible.collect()`. -/
structure CollectionResult where
  type : CType
  value : ℚ
  effect : Effect
  deriving DecidableEq, Repr

/-- State of the `Collectible` class (main script).  Animation, bobbing,
rotation, glow and magnetic-attraction bookkeeping are omitted: no claim
reads them (the collection-animation flag is kept because `collect()` sets
it). -/
structure Collectible where
  x : ℚ
  y : ℚ
  originalY : ℚ
  width : ℚ
  height : ℚ
  type : CType
  value : ℚ
  collected : Bool
  collectionAnimActive : Bool
  deriving DecidableEq, Repr

namespace Collectible

/-- Value table of the `types` record in the `Collectible` constructor:
coin 10, gem 50, health 25, star 100. -/
def typeValue : CType → ℚ
  | CType.coin => 10
  | CType.gem => 50
  | CType.health => 25
  | CType.star => 100

/-- Embedding of the `Collectible` constructor (width = height = 24) followed
by `updateTypeProperties()`, which overwrites the passed `value` with the
type table's value (every modelled type is present in the table). -/
def init (x y : ℚ) (type : CType) (value : ℚ) : Collectible :=
  { x := x, y := y, originalY := y, width := 24, height := 24
    type := type, value := typeValue type
    collected := false, collectionAnimActive := false }

/-- Collision rectangle of the collectible. -/
def rect (c : Collectible) : Rect :=
  { x := c.x, y := c.y, width := c.width, height := c.height }

/-- Embedding of `Collectible.getCollectionEffect()`. -/
def getCollectionEffect (c : Collectible) : Effect :=
  match c.type with
  | CType.health => Effect.health
  | CType.star => Effect.special
  | _ => Effect.score

/-- Embedding of `Collectible.collect()`: marks the item collected, starts
the collection animation, and returns the result object.  The collection
sound is an external effect. -/
def collect (c : Collectible) : Collectible × Option CollectionResult :=
  if c.collected then (c, none)
  else
    ({ c with collected := true, collectionAnimActive := true },
     some { type := c.type, value := c.value, effect := c.getCollectionEffect })

/-- Embedding of `Collectible.checkPlayerCollision(player)`: null when
already collected or no player; collects on any AABB overlap. -/
def checkPlayerCollision (c : Collectible) (player : Option Player) : Collectible × Option CollectionResult :=
  match player with
  | none => (c, none)
  | some p =>
      if c.collected then (c, none)
      else if checkCollision c.rect p.rect then c.collect
      else (c, none)

/-- Embedding of `Collectible.reset()` (the visual fields also reset there
are not modelled). -/
def reset (c : Collectible) : Collectible :=
  { c with collected := false, collectionAnimActive := false, y := c.originalY }

/-- Iterated `checkPlayerCollision` calls against successive player
snapshots, accumulating the reported results. -/
def checkCalls (c : Collectible) (players : List (Option Player)) :
    Collectible × List (Option CollectionResult) :=
  players.foldl
    (fun acc pl =>
      let r := acc.1.checkPlayerCollision pl
      (r.1, acc.2 ++ [r.2]))
    (c, [])

end Collectible

/-- Camera-state slice read and written by `Camera.updateTargetFollowing`
(input.js).  Shake, zoom, bounds and flash state are updated by other
methods and omitted here. -/
structure Camera where
  x : ℚ
  y : ℚ
  width : ℚ
  height : ℚ
  velocityX : ℚ
  velocityY : ℚ
  followSpeed : ℚ
  lookahead : ℚ
  deadzoneX : ℚ
  deadzoneY : ℚ
  smoothing : ℚ
  targetOffsetX : ℚ
  targetOffsetY : ℚ
  deriving DecidableEq, Repr

/-- Follow target of the camera (in the game always the `Player`, which
always has a `velocityX`, so the `this.target.velocityX !== undefined`
guard of the source is always taken and `(this.target.width || 0)` is the
width). -/
structure CamTarget where
  x : ℚ
  y : ℚ
  width : ℚ
  height : ℚ
  velocityX : ℚ
  deriving DecidableEq, Repr

/-- Embedding of `Camera.updateTargetFollowing(deltaTime)` (input.js),
shadowing `desiredX`/`desiredY` exactly as the source reassigns them: the
lookahead-adjusted value is computed and then unconditionally overwritten
by the deadzone branch.  `deltaTime` is unused by the source body as well. -/
def Camera.updateTargetFollowing (c : Camera) (t : CamTarget) : Camera :=
  let targetX := t.x + t.width / 2 + c.targetOffsetX
  let targetY := t.y + t.height / 2 + c.targetOffsetY
  let desiredX := targetX - c.width / 2
  let desiredY := targetY - c.height / 2
  let lookaheadX := t.velocityX * c.lookahead
  let desiredX := desiredX + lookaheadX
  let currentCenterX := c.x + c.width / 2
  let currentCenterY := c.y + c.height / 2
  let deltaX := targetX - currentCenterX
  let deltaY := targetY - currentCenterY
  let desiredX := if |deltaX| > c.deadzoneX then c.x + (deltaX - jsSign deltaX * c.deadzoneX) else c.x
  let desiredY := if |deltaY| > c.deadzoneY then c.y + (deltaY - jsSign deltaY * c.deadzoneY) else c.y
  let vx := lerp c.velocityX ((desiredX - c.x) * c.followSpeed) c.smoothing
  let vy := lerp c.velocityY ((desiredY - c.y) * c.followSpeed) c.smoothing
  { c with velocityX := vx, velocityY := vy, x := c.x + vx, y := c.y + vy }

/-- Modelled from the spec: `Camera.updateTargetFollowing` with the
lookahead term deleted (the spec's Design Notes describe the lookahead as
dead code overwritten by the deadzone computation; this definition is the
comparison point for that refinement claim). -/
def Camera.updateTargetFollowingNoLookahead (c : Camera) (t : CamTarget) : Camera :=
  let targetX := t.x + t.width / 2 + c.targetOffsetX
  let targetY := t.y + t.height / 2 + c.targetOffsetY
  let currentCenterX := c.x + c.width / 2
  let currentCenterY := c.y + c.height / 2
  let deltaX := targetX - currentCenterX
  let deltaY := targetY - currentCenterY
  let desiredX := if |deltaX| > c.deadzoneX then c.x + (deltaX - jsSign deltaX * c.deadzoneX) else c.x
  let desiredY := if |deltaY| > c.deadzoneY then c.y + (deltaY - jsSign deltaY * c.deadzoneY) else c.y
  let vx := lerp c.velocityX ((desiredX - c.x) * c.followSpeed) c.smoothing
  let vy := lerp c.velocityY ((desiredY - c.y) * c.followSpeed) c.smoothing
  { c with velocityX := vx, velocityY := vy, x := c.x + vx, y := c.y + vy }

/-- Game states of the orchestrator (`Game` class of the main script). -/
inductive GState where
  | loading
  | menu
  | playing
  | paused
  | gameOver
  | levelComplete
  deriving DecidableEq, Repr

/-- Level-state slice read by the collision dispatch and the win/lose
evaluation of the orchestrator (`Level` class): its entity collections and
completion/time-limit data.  Platforms and checkpoints are updated
elsewhere and not read by these paths. -/
structure Level where
  enemies : List Enemy
  collectibles : List Collectible
  completed : Bool
  timeLimit : Option ℚ
  startTime : ℚ
  deriving DecidableEq, Repr

/-- Embedding of `Level.isTimeUp()`; `now` stands for the `getTimestamp()`
read.  A missing time limit — and, via JavaScript falsiness, a zero one —
reports false. -/
def Level.isTimeUp (l : Level) (now : ℚ) : Bool :=
  match l.timeLimit with
  | none => false
  | some tl => if tl = 0 then false else decide (now - l.startTime ≥ tl)

/-- Orchestrator-state slice read and written by `Game.handleCollisions` and
`Game.checkGameConditions` (main script).  Camera, background, input and UI
are external collaborators on these paths. -/
structure Game where
  player : Player
  lives : ℤ
  score : ℚ
  totalScore : ℚ
  state : GState
  level : Level
  deriving DecidableEq, Repr

namespace Game

/-- Embedding of `Game.handleCollectibleCollection(collection)`: score items
add to the score, health items heal the player, special items add to the
score (the camera flash is an external effect). -/
def handleCollectibleCollection (g : Game) (collection : CollectionResult) : Game :=
  match collection.effect with
  | Effect.score => { g with score := g.score + collection.value }
  | Effect.health => { g with player := g.player.heal collection.value }
  | Effect.special => { g with score := g.score + collection.value }

/-- Embedding of `Game.handleCollisions()`: every enemy's
`checkPlayerCollision` runs against the (progressively updated) player,
then every collectible's; a reported collection is handed to
`handleCollectibleCollection`.  The camera shake and gamepad vibration on
an enemy hit are external effects.  `now` stands for the `getTimestamp()`
reads inside `Player.takeDamage`. -/
def handleCollisions (g : Game) (now : ℚ) : Game :=
  let enemyPass :=
    g.level.enemies.foldl
      (fun (acc : List Enemy × Player) e =>
        let r := e.checkPlayerCollision acc.2 now
        (acc.1 ++ [r.1], r.2.1))
      ([], g.player)
  let g1 := { g with player := enemyPass.2
                   , level := { g.level with enemies := enemyPass.1 } }
  let collectiblePass :=
    g1.level.collectibles.foldl
      (fun (acc : List Collectible × Game) c =>
        let r := c.checkPlayerCollision (some acc.2.player)
        match r.2 with
        | some collection => (acc.1 ++ [r.1], acc.2.handleCollectibleCollection collection)
        | none => (acc.1 ++ [r.1], acc.2))
      ([], g1)
  { collectiblePass.2 with
      level := { collectiblePass.2.level with collectibles := collectiblePass.1 } }

/-- Embedding of `Game.gameOver()` restricted to the modelled state (the
game-over screen is UI). -/
def gameOver (g : Game) : Game :=
  { g with state := GState.gameOver }

/-- Embedding of `Game.calculateTimeBonus()`; `now` stands for the
`getTimestamp()` read inside `Level.getRemainingTime`.  A missing — or, via
falsiness, zero — time limit yields 0. -/
def calculateTimeBonus (g : Game) (now : ℚ) : ℚ :=
  match g.level.timeLimit with
  | none => 0
  | some tl =>
      if tl = 0 then 0
      else
        let remainingTime := max 0 (tl - (now - g.level.startTime))
        (⌊remainingTime / tl * 1000⌋ : ℤ)

/-- Embedding of `Game.levelComplete()` restricted to the modelled state:
state change and score bookkeeping (screen and sound are external). -/
def levelComplete (g : Game) (now : ℚ) : Game :=
  let g1 := { g with state := GState.levelComplete, totalScore := g.totalScore + g.score }
  let timeBonus := g1.calculateTimeBonus now
  let healthBonus : ℚ := (⌊g1.player.health⌋ : ℤ)
  { g1 with score := g1.score + timeBonus + healthBonus
          , totalScore := g1.totalScore + timeBonus + healthBonus }

/-- Embedding of `Game.checkGameConditions()`: the death check (lives
decrement, then respawn or game over), the level-completed check, and the
time-limit check, in source order.  The camera shake on respawn is an
external effect; `now` stands for the `getTimestamp()` reads. -/
def checkGameConditions (g : Game) (now : ℚ) : Game :=
  let g1 :=
    if g.player.isDead then
      let g' := { g with lives := g.lives - 1 }
      if g'.lives ≤ 0 then g'.gameOver
      else { g' with player := g'.player.respawn now }
    else g
  let g2 := if g1.level.completed then g1.levelComplete now else g1
  if g2.level.isTimeUp now then g2.gameOver else g2

/-- Tail of `Game.updatePlaying(deltaTime)` in source order: the collision
dispatch (`handleCollisions`) runs strictly before the win/lose evaluation
(`checkGameConditions`). -/
def collisionsThenConditions (g : Game) (now : ℚ) : Game :=
  (g.handleCollisions now).checkGameConditions now

end Game

/-- One call of the player's health interface: `takeDamage(d)` at wall-clock
`now`, or `heal(a)`. -/
inductive HealthOp where
  | damage (d : ℚ) (now : ℚ)
  | heal (a : ℚ)
  deriving DecidableEq, Repr

/-- Application of one health call to the player. -/
def Player.applyHealthOp (p : Player) : HealthOp → Player
  | HealthOp.damage d now => (p.takeDamage d now).1
  | HealthOp.heal a => p.heal a

/-- Application of a finite sequence of health calls, in order. -/
def Player.applyHealthOps (p : Player) (ops : List HealthOp) : Player :=
  ops.foldl Player.applyHealthOp p

/-- Non-negativity of a health call's amount. -/
def HealthOp.nonneg : HealthOp → Prop
  | HealthOp.damage d _ => 0 ≤ d
  | HealthOp.heal a => 0 ≤ a

/-- Membership of a point in the open interior of a rectangle. -/
def Rect.inInterior (r : Rect) (px py : ℚ) : Prop :=
  r.x < px ∧ px < r.x + r.width ∧ r.y < py ∧ py < r.y + r.height

instance : DecidablePred HealthOp.nonneg := fun op =>
  match op with
  | HealthOp.damage d _ => inferInstanceAs (Decidable (0 ≤ d))
  | HealthOp.heal a => inferInstanceAs (Decidable (0 ≤ a))

/-- Preservation of the health bounds by a single `takeDamage`/`heal` call
with non-negative amount. -/
theorem Player.applyHealthOp_bounds (p : Player) (op : HealthOp) (hop : op.nonneg)
    (h0 : 0 ≤ p.health) (h1 : p.health ≤ p.maxHealth) :
    0 ≤ (p.applyHealthOp op).health ∧
    (p.applyHealthOp op).health ≤ (p.applyHealthOp op).maxHealth ∧
    (p.applyHealthOp op).maxHealth = p.maxHealth := by
  cases op with
  | damage d now =>
      by_cases hi : p.invulnerable
      · simp [Player.applyHealthOp, Player.takeDamage, hi, h0, h1]
      · simp only [HealthOp.nonneg] at hop
        have hle : max 0 (p.health - d) ≤ p.maxHealth := by
          have hsub : p.health - d ≤ p.maxHealth := by linarith
          have hmax0 : (0 : ℚ) ≤ p.maxHealth := le_trans h0 h1
          exact max_le hmax0 hsub
        by_cases hh : max 0 (p.health - d) > 0 <;>
          simp [Player.applyHealthOp, Player.takeDamage, hi, hh, le_max_iff, hle]
  | heal a =>
      simp only [HealthOp.nonneg] at hop
      refine ⟨?_, ?_, rfl⟩
      · simp only [Player.applyHealthOp, Player.heal, le_min_iff]
        constructor <;> linarith
      · simp [Player.applyHealthOp, Player.heal]

/-- C4: starting from any state with `0 ≤ health ≤ maxHealth`, every finite
sequence of `takeDamage`/`heal` calls with non-negative arguments keeps
`0 ≤ health ≤ maxHealth`.  Since every prefix of such a sequence is itself
such a sequence, the bound holds after every individual call. -/
theorem C4_health_bounds_invariant :
    ∀ (ops : List HealthOp) (p : Player),
      (∀ op ∈ ops, HealthOp.nonneg op) →
      0 ≤ p.health → p.health ≤ p.maxHealth →
      0 ≤ (p.applyHealthOps ops).health ∧
        (p.applyHealthOps ops).health ≤ (p.applyHealthOps ops).maxHealth := by
  intro ops
  induction ops with
  | nil =>
      intro p _ h0 h1
      exact ⟨h0, h1⟩
  | cons op rest ih =>
      intro p hops h0 h1
      have hstep := p.applyHealthOp_bounds op (hops op (List.mem_cons_self op rest)) h0 h1
      have hrest := ih (p.applyHealthOp op)
        (fun o ho => hops o (List.mem_cons_of_mem op ho)) hstep.1
        (hstep.2.2 ▸ hstep.2.1)
      simpa [Player.applyHealthOps, List.foldl_cons] using hrest

/-- Closed instance of `C4_health_bounds_invariant`: a fresh player hit for
30, healed for 50 and hit for 200 stays within `0 ≤ health ≤ 100`. -/
theorem C4_health_bounds_invariant_witness :
    0 ≤ ((Player.init 0 0).applyHealthOps
          [HealthOp.damage 30 0, HealthOp.heal 50, HealthOp.damage 200 5]).health ∧
    ((Player.init 0 0).applyHealthOps
          [HealthOp.damage 30 0, HealthOp.heal 50, HealthOp.damage 200 5]).health ≤
      ((Player.init 0 0).applyHealthOps
          [HealthOp.damage 30 0, HealthOp.heal 50, HealthOp.damage 200 5]).maxHealth :=
  C4_health_bounds_invariant _ (Player.init 0 0) (by decide) (by decide) (by decide)

/-- C3: `takeDamage(d)` is a no-op while invulnerable (for every damage
amount the state, in particular health, is unchanged); otherwise health
becomes `max 0 (health - d)`, and the invulnerable flag ends up set — with
the window timestamp taken from the moment of the hit — exactly when the
resulting health is positive; the window length is the fixed 1000 ms of the
constructor, and `updateInvulnerability` clears the flag exactly once the
window has elapsed. -/
theorem C3_takeDamage_invulnerability :
    (∀ (p : Player) (d now : ℚ), p.invulnerable = true →
        p.takeDamage d now = (p, false)) ∧
    (∀ (p : Player) (d now : ℚ), p.invulnerable = false →
        (p.takeDamage d now).1.health = max 0 (p.health - d) ∧
        ((p.takeDamage d now).1.invulnerable = true ↔ 0 < max 0 (p.health - d)) ∧
        (0 < max 0 (p.health - d) → (p.takeDamage d now).1.lastDamageTime = now)) ∧
    (∀ (x y : ℚ), (Player.init x y).invulnerabilityTime = 1000) ∧
    (∀ (p : Player) (now : ℚ),
        (p.updateInvulnerability now).invulnerable =
          (p.invulnerable && !decide (now - p.lastDamageTime ≥ p.invulnerabilityTime))) := by
  refine ⟨?_, ?_, ?_, ?_⟩
  · intro p d now hi
    simp [Player.takeDamage, hi]
  · intro p d now hi
    by_cases hh : 0 < max 0 (p.health - d) <;>
      simp [Player.takeDamage, hi, hh, gt_iff_lt]
  · intro x y
    rfl
  · intro p now
    by_cases hi : p.invulnerable <;>
      by_cases hc : now - p.lastDamageTime ≥ p.invulnerabilityTime <;>
        simp [Player.updateInvulnerability, hi, hc]

/-- Closed instance of `C3_takeDamage_invulnerability`: an invulnerable
player hit for 30 keeps health 100; a vulnerable fresh player hit for 30
drops to 70 and becomes invulnerable stamped at the hit time; 1000 ms later
`updateInvulnerability` clears the flag. -/
theorem C3_takeDamage_invulnerability_witness :
    (({ Player.init 0 0 with invulnerable := true }).takeDamage 30 5 =
       ({ Player.init 0 0 with invulnerable := true }, false)) ∧
    ((Player.init 0 0).takeDamage 30 5).1.health = 70 ∧
    ((Player.init 0 0).takeDamage 30 5).1.invulnerable = true ∧
    ((Player.init 0 0).takeDamage 30 5).1.lastDamageTime = 5 ∧
    ((((Player.init 0 0).takeDamage 30 5).1).updateInvulnerability 1005).invulnerable = false := by
  have h1 := C3_takeDamage_invulnerability.1 { Player.init 0 0 with invulnerable := true } 30 5 rfl
  have h2 := C3_takeDamage_invulnerability.2.1 (Player.init 0 0) 30 5 rfl
  have h4 := C3_takeDamage_invulnerability.2.2.2 ((Player.init 0 0).takeDamage 30 5).1 1005
  refine ⟨h1, ?_, ?_, ?_, ?_⟩
  · rw [h2.1]; norm_num [Player.init]
  · rw [h2.2.1.2 (by norm_num [Player.init])]
  · exact h2.2.2 (by norm_num [Player.init])
  · rw [h4]; norm_num [Player.takeDamage, Player.init]

/-- Overlapping rectangles (per `checkCollision`) with positive dimensions
share an interior point, the midpoint of the overlap region. -/
theorem checkCollision_exists_interior (r1 r2 : Rect)
    (hw1 : 0 < r1.width) (hh1 : 0 < r1.height) (hw2 : 0 < r2.width) (hh2 : 0 < r2.height)
    (h : checkCollision r1 r2 = true) :
    ∃ px py, r1.inInterior px py ∧ r2.inInterior px py := by
  simp only [checkCollision, Bool.and_eq_true, decide_eq_true_eq, gt_iff_lt] at h
  obtain ⟨⟨⟨h1, h2⟩, h3⟩, h4⟩ := h
  have hx : max r1.x r2.x < min (r1.x + r1.width) (r2.x + r2.width) :=
    max_lt (lt_min (by linarith) h1) (lt_min h2 (by linarith))
  have hy : max r1.y r2.y < min (r1.y + r1.height) (r2.y + r2.height) :=
    max_lt (lt_min (by linarith) h3) (lt_min h4 (by linarith))
  refine ⟨(max r1.x r2.x + min (r1.x + r1.width) (r2.x + r2.width)) / 2,
          (max r1.y r2.y + min (r1.y + r1.height) (r2.y + r2.height)) / 2, ?_, ?_⟩ <;>
    refine ⟨?_, ?_, ?_, ?_⟩
  · have := le_max_left r1.x r2.x; linarith
  · have := min_le_left (r1.x + r1.width) (r2.x + r2.width); linarith
  · have := le_max_left r1.y r2.y; linarith
  · have := min_le_left (r1.y + r1.height) (r2.y + r2.height); linarith
  · have := le_max_right r1.x r2.x; linarith
  · have := min_le_right (r1.x + r1.width) (r2.x + r2.width); linarith
  · have := le_max_right r1.y r2.y; linarith
  · have := min_le_right (r1.y + r1.height) (r2.y + r2.height); linarith

/-- C9: `checkCollision` uses strict inequalities on all four edge
comparisons, so rectangles without a common interior point — in particular
a pair merely touching along an edge or corner, such as an entity resting
exactly on a platform's top surface (`rect1.y + rect1.height = rect2.y`) —
do not collide, and a player resting exactly on a platform's top undergoes
no collision resolution that frame (`handlePlatformCollisions` only clears
the per-frame grounded flag and leaves position and velocity untouched). -/
theorem C9_strict_edge_contact :
    (∀ r1 r2 : Rect, 0 < r1.width → 0 < r1.height → 0 < r2.width → 0 < r2.height →
       (¬ ∃ px py, r1.inInterior px py ∧ r2.inInterior px py) →
       checkCollision r1 r2 = false) ∧
    (∀ r1 r2 : Rect, r1.y + r1.height = r2.y → checkCollision r1 r2 = false) ∧
    (∀ (p : Player) (pl : Platform), p.y + p.height = pl.y →
       p.handlePlatformCollisions [pl] = { p with isGrounded := false }) := by
  refine ⟨?_, ?_, ?_⟩
  · intro r1 r2 hw1 hh1 hw2 hh2 hno
    rcases Bool.eq_false_or_eq_true (checkCollision r1 r2) with h | h
    · exact absurd (checkCollision_exists_interior r1 r2 hw1 hh1 hw2 hh2 h) hno
    · exact h
  · intro r1 r2 h
    simp [checkCollision, h]
  · intro p pl h
    simp [Player.handlePlatformCollisions, Player.resolvePlatform, checkCollision,
          Player.rect, Platform.rect, h]

/-- Closed instance of `C9_strict_edge_contact`: rectangles 10 apart, a
32×48 entity resting exactly on a platform top, and the fresh player
resting exactly on a 100×20 platform at y = 48. -/
theorem C9_strict_edge_contact_witness :
    checkCollision { x := 0, y := 0, width := 10, height := 10 }
        { x := 20, y := 0, width := 5, height := 5 } = false ∧
    checkCollision { x := 0, y := 0, width := 32, height := 48 }
        { x := 0, y := 48, width := 100, height := 20 } = false ∧
    (Player.init 0 0).handlePlatformCollisions [Platform.init 0 48 100 20 PType.static] =
      { Player.init 0 0 with isGrounded := false } := by
  refine ⟨C9_strict_edge_contact.1 _ _ (by norm_num) (by norm_num) (by norm_num) (by norm_num) ?_,
          C9_strict_edge_contact.2.1 _ _ (by norm_num),
          C9_strict_edge_contact.2.2 _ _ (by norm_num [Player.init, Platform.init])⟩
  rintro ⟨px, py, h1, h2⟩
  simp only [Rect.inInterior] at h1 h2
  obtain ⟨ha, hb, -, -⟩ := h1
  obtain ⟨hc, hd, -, -⟩ := h2
  norm_num at ha hb hc hd
  linarith

/-- A collected collectible is left unchanged by `checkPlayerCollision` and
reports nothing. -/
theorem Collectible.checkPlayerCollision_of_collected (c : Collectible)
    (player : Option Player) (hc : c.collected = true) :
    c.checkPlayerCollision player = (c, none) := by
  cases player with
  | none => rfl
  | some p => simp [Collectible.checkPlayerCollision, hc]

/-- Iterated calls on a collected collectible keep the state and report
nothing, whatever the player snapshots. -/
theorem Collectible.checkCalls_of_collected :
    ∀ (players : List (Option Player)) (c : Collectible)
      (lst : List (Option CollectionResult)), c.collected = true →
      players.foldl
        (fun acc pl =>
          let r := Collectible.checkPlayerCollision acc.1 pl
          (r.1, acc.2 ++ [r.2]))
        (c, lst) = (c, lst ++ List.replicate players.length none) := by
  intro players
  induction players with
  | nil => intro c lst _; simp
  | cons pl rest ih =>
      intro c lst hc
      simp only [List.foldl_cons, Collectible.checkPlayerCollision_of_collected c pl hc]
      rw [ih c (lst ++ [none]) hc]
      simp [List.replicate_succ]

/-- C7: a collectible reports a collection at most once per level life: the
first overlapping call on an uncollected item (any AABB overlap, no
jump-on-top gating) marks it collected and returns the item's type, value
and effect category; a non-overlapping or player-less call changes nothing;
every call on a collected item returns null and keeps the collected flag,
hence across arbitrarily many subsequent frames all reports are null; any
call that does report marks the item collected; only `reset()` clears the
flag. -/
theorem C7_collectible_single_report :
    (∀ (c : Collectible) (p : Player), c.collected = false →
       checkCollision c.rect p.rect = true →
       (c.checkPlayerCollision (some p)).1.collected = true ∧
       (c.checkPlayerCollision (some p)).2 =
         some { type := c.type, value := c.value, effect := c.getCollectionEffect }) ∧
    (∀ (c : Collectible) (p : Player), checkCollision c.rect p.rect = false →
       c.checkPlayerCollision (some p) = (c, none)) ∧
    (∀ c : Collectible, c.checkPlayerCollision none = (c, none)) ∧
    (∀ (c : Collectible) (player : Option Player), c.collected = true →
       c.checkPlayerCollision player = (c, none)) ∧
    (∀ (c : Collectible) (player : Option Player) (res : CollectionResult),
       (c.checkPlayerCollision player).2 = some res →
       (c.checkPlayerCollision player).1.collected = true) ∧
    (∀ (c : Collectible) (players : List (Option Player)), c.collected = true →
       (c.checkCalls players).2 = List.replicate players.length none) ∧
    (∀ c : Collectible, c.reset.collected = false) := by
  refine ⟨?_, ?_, ?_, ?_, ?_, ?_, ?_⟩
  · intro c p hc hov
    simp [Collectible.checkPlayerCollision, Collectible.collect, hc, hov]
  · intro c p hov
    by_cases hc : c.collected <;>
      simp [Collectible.checkPlayerCollision, hc, hov]
  · intro c
    rfl
  · intro c player hc
    exact Collectible.checkPlayerCollision_of_collected c player hc
  · intro c player res h
    cases player with
    | none => simp [Collectible.checkPlayerCollision] at h
    | some p =>
        by_cases hc : c.collected
        · simp [Collectible.checkPlayerCollision, hc] at h
        · by_cases hov : checkCollision c.rect p.rect <;>
            simp [Collectible.checkPlayerCollision, Collectible.collect, hc, hov] at h ⊢
  · intro c players hc
    have := Collectible.checkCalls_of_collected players c [] hc
    simp [Collectible.checkCalls, this]
  · intro c
    rfl

/-- Closed instance of `C7_collectible_single_report`: a fresh coin at the
origin overlapping the fresh player reports once, then three further
overlapping frames all report null. -/
theorem C7_collectible_single_report_witness :
    ((Collectible.init 0 0 CType.coin 10).checkPlayerCollision (some (Player.init 0 0))).2 =
      some { type := CType.coin, value := 10, effect := Effect.score } ∧
    (((Collectible.init 0 0 CType.coin 10).checkPlayerCollision
        (some (Player.init 0 0))).1.checkCalls
      [some (Player.init 0 0), some (Player.init 0 0), none]).2 =
        [none, none, none] := by
  constructor
  · exact (C7_collectible_single_report.1 (Collectible.init 0 0 CType.coin 10)
      (Player.init 0 0) rfl (by norm_num [Collectible.init, Player.init,
        Collectible.rect, Player.rect, checkCollision])).2
  · have hcoll := (C7_collectible_single_report.1 (Collectible.init 0 0 CType.coin 10)
      (Player.init 0 0) rfl (by norm_num [Collectible.init, Player.init,
        Collectible.rect, Player.rect, checkCollision])).1
    have := C7_collectible_single_report.2.2.2.2.2.1
      ((Collectible.init 0 0 CType.coin 10).checkPlayerCollision (some (Player.init 0 0))).1
      [some (Player.init 0 0), some (Player.init 0 0), none] hcoll
    simpa [List.replicate] using this

/-- C6: against a live player, a non-chasing enemy enters chase exactly when
the center distance is at most `detectionRange` (inclusive bound); a chasing
enemy (with the code's non-negative detection range) leaves chase exactly
when the distance strictly exceeds `detectionRange * 1.5`; and a chasing
enemy stays in chase across any sequence of updates whose distances all stay
at most `detectionRange * 1.5` — no flapping inside the hysteresis band. -/
theorem C6_chase_hysteresis :
    (∀ (e : Enemy) (d : ℚ), e.isChasing = false →
       ((e.stepChase d).isChasing = true ↔ d ≤ e.detectionRange)) ∧
    (∀ (e : Enemy) (d : ℚ), e.isChasing = true → 0 ≤ e.detectionRange →
       ((e.stepChase d).isChasing = false ↔ e.detectionRange * 1.5 < d)) ∧
    (∀ (e : Enemy) (dists : List ℚ), e.isChasing = true →
       (∀ d ∈ dists, d ≤ e.detectionRange * 1.5) →
       (e.stepChaseList dists).isChasing = true) := by
  refine ⟨?_, ?_, ?_⟩
  · intro e d hc
    by_cases hd : d ≤ e.detectionRange <;>
      simp [Enemy.stepChase, Enemy.updateAIChaseFlag, hc, hd]
  · intro e d hc h0
    by_cases hd : d ≤ e.detectionRange
    · have : ¬ e.detectionRange * 1.5 < d := by linarith
      simp [Enemy.stepChase, Enemy.updateAIChaseFlag, hc, hd, this]
    · by_cases hb : e.detectionRange * 1.5 < d <;>
        simp [Enemy.stepChase, Enemy.updateAIChaseFlag, hc, hd, hb, gt_iff_lt]
  · intro e dists
    induction dists generalizing e with
    | nil => intro hc _; exact hc
    | cons d rest ih =>
        intro hc hband
        have hd := hband d (List.mem_cons_self d rest)
        have hstep : (e.stepChase d).isChasing = true := by
          by_cases hle : d ≤ e.detectionRange <;>
            simp [Enemy.stepChase, Enemy.updateAIChaseFlag, hc, hle, not_lt_of_le hd]
        have hrange : (e.stepChase d).detectionRange = e.detectionRange := rfl
        have := ih (e.stepChase d) hstep
          (fun x hx => by rw [hrange]; exact hband x (List.mem_cons_of_mem d hx))
        simpa [Enemy.stepChaseList, List.foldl_cons] using this

/-- Closed instance of `C6_chase_hysteresis` with the constructor's
detection range 150: distance exactly 150 enters chase; a chasing enemy at
210 (= 1.4 × 150) stays chasing; at 240 (= 1.6 × 150) it reverts; and a
chasing enemy run through distances 150, 210, 225 is still chasing. -/
theorem C6_chase_hysteresis_witness :
    ((Enemy.init 0 0).stepChase 150).isChasing = true ∧
    (({ Enemy.init 0 0 with isChasing := true }).stepChase 210).isChasing = true ∧
    (({ Enemy.init 0 0 with isChasing := true }).stepChase 240).isChasing = false ∧
    (({ Enemy.init 0 0 with isChasing := true }).stepChaseList [150, 210, 225]).isChasing = true := by
  refine ⟨?_, ?_, ?_, ?_⟩
  · exact (C6_chase_hysteresis.1 (Enemy.init 0 0) 150 rfl).mpr (by norm_num [Enemy.init])
  · have := C6_chase_hysteresis.2.2 { Enemy.init 0 0 with isChasing := true } [210] rfl
      (by intro d hd; simp at hd; norm_num [hd, Enemy.init])
    simpa [Enemy.stepChaseList] using this
  · exact (C6_chase_hysteresis.2.1 { Enemy.init 0 0 with isChasing := true } 240 rfl
      (by norm_num [Enemy.init])).mpr (by norm_num [Enemy.init])
  · exact C6_chase_hysteresis.2.2 { Enemy.init 0 0 with isChasing := true } [150, 210, 225] rfl
      (by intro d hd; simp at hd; rcases hd with rfl | rfl | rfl <;> norm_num [Enemy.init])

/-- C5: for an alive enemy and a live player whose rectangles overlap,
`Enemy.checkPlayerCollision` kills the enemy (lethal self-`maxHealth`
damage), sets the player's vertical velocity to exactly -8, leaves the
player's health untouched and reports no damage whenever the player's
bottom is at or above the enemy's top plus the 10-pixel tolerance and the
player moves strictly downward; in every other overlapping case the enemy
is unchanged and the player goes through the normal `Player.takeDamage`
path with the enemy's damage (20 in the constructor), which respects
invulnerability. -/
theorem C5_stomp_or_damage :
    (∀ (e : Enemy) (p : Player) (now : ℚ),
      e.isAlive = true → p.isDead = false →
      checkCollision e.rect p.rect = true →
      e.health ≤ e.maxHealth →
      ((p.y + p.height ≤ e.y + 10 ∧ 0 < p.velocityY →
          (e.checkPlayerCollision p now).1.isAlive = false ∧
          (e.checkPlayerCollision p now).2.1.velocityY = -8 ∧
          (e.checkPlayerCollision p now).2.1.health = p.health ∧
          (e.checkPlayerCollision p now).2.2 = false) ∧
       (¬(p.y + p.height ≤ e.y + 10 ∧ 0 < p.velocityY) →
          (e.checkPlayerCollision p now).1 = e ∧
          (e.checkPlayerCollision p now).2.1 = (p.takeDamage e.damage now).1 ∧
          (e.checkPlayerCollision p now).2.2 = (p.takeDamage e.damage now).2 ∧
          (p.invulnerable = true →
            (e.checkPlayerCollision p now).2.1.health = p.health)))) ∧
    (∀ x y : ℚ, (Enemy.init x y).damage = 20) := by
  constructor
  · intro e p now hal hpd hov hhm
    constructor
    · intro hstomp
      have hmax : max 0 (e.health - e.maxHealth) ≤ 0 := max_le le_rfl (by linarith)
      simp [Enemy.checkPlayerCollision, Enemy.takeDamage, Enemy.die,
            hal, hpd, hov, hstomp.1, hstomp.2, hmax]
    · intro hnst
      have hmain : (e.checkPlayerCollision p now).1 = e ∧
          (e.checkPlayerCollision p now).2.1 = (p.takeDamage e.damage now).1 ∧
          (e.checkPlayerCollision p now).2.2 = (p.takeDamage e.damage now).2 := by
        simp [Enemy.checkPlayerCollision, hal, hpd, hov, hnst]
      refine ⟨hmain.1, hmain.2.1, hmain.2.2, ?_⟩
      intro hinv
      rw [hmain.2.1]
      simp [Player.takeDamage, hinv]
  · intro x y
    rfl

/-- Closed instance of `C5_stomp_or_damage`: the fresh player falling
(velocityY 5) with its bottom at the top of an enemy at (0, 100) kills the
enemy, bounces at -8, keeps health 100, and no damage is reported; the same
overlap with a non-falling invulnerable player leaves the player's health
at 100; the constructed enemy's damage is 20. -/
theorem C5_stomp_or_damage_witness :
    ((Enemy.init 0 100).checkPlayerCollision { Player.init 0 60 with velocityY := 5 } 0).1.isAlive = false ∧
    ((Enemy.init 0 100).checkPlayerCollision { Player.init 0 60 with velocityY := 5 } 0).2.1.velocityY = -8 ∧
    ((Enemy.init 0 100).checkPlayerCollision { Player.init 0 60 with velocityY := 5 } 0).2.1.health = 100 ∧
    ((Enemy.init 0 100).checkPlayerCollision { Player.init 0 60 with velocityY := 5 } 0).2.2 = false ∧
    ((Enemy.init 0 100).checkPlayerCollision { Player.init 0 60 with invulnerable := true } 0).2.1.health = 100 ∧
    (Enemy.init 0 0).damage = 20 := by
  have hstomp := ((C5_stomp_or_damage.1 (Enemy.init 0 100)
      { Player.init 0 60 with velocityY := 5 } 0 rfl
      (by norm_num [Player.isDead, Player.init])
      (by norm_num [checkCollision, Enemy.rect, Player.rect, Enemy.init, Player.init])
      (by norm_num [Enemy.init])).1
      (by norm_num [Player.init, Enemy.init]))
  have hsafe := ((C5_stomp_or_damage.1 (Enemy.init 0 100)
      { Player.init 0 60 with invulnerable := true } 0 rfl
      (by norm_num [Player.isDead, Player.init])
      (by norm_num [checkCollision, Enemy.rect, Player.rect, Enemy.init, Player.init])
      (by norm_num [Enemy.init])).2
      (by norm_num [Player.init, Enemy.init])).2.2.2 rfl
  refine ⟨hstomp.1, hstomp.2.1, ?_, hstomp.2.2.2, ?_, C5_stomp_or_damage.2 0 0⟩
  · rw [hstomp.2.2.1]; rfl
  · rw [hsafe]; rfl

/-- C8: the lookahead-adjusted desired X of `Camera.updateTargetFollowing`
is unconditionally overwritten by the deadzone computation before use, so
the update coincides with the embedding with the lookahead term deleted,
and in particular two runs differing only in the target's `velocityX`
produce identical camera position and velocity. -/
theorem C8_lookahead_dead_code :
    (∀ (c : Camera) (t : CamTarget),
       c.updateTargetFollowing t = c.updateTargetFollowingNoLookahead t) ∧
    (∀ (c : Camera) (t : CamTarget) (v : ℚ),
       c.updateTargetFollowing { t with velocityX := v } = c.updateTargetFollowing t) := by
  exact ⟨fun c t => rfl, fun c t v => rfl⟩

/-- C1 (counterexample): the claim that a platform whose crumbling flag is
set "no longer takes part in the player's per-frame platform collision
resolution" is false on the code: a crumbling-type platform with
`isCrumbling = true` (so `providesCollision()` is false) at (0, 40) still
resolves the fresh player at the origin — `handlePlatformCollisions` snaps
the player on top (y becomes -8), grounds it, and gives a different result
than with the platform absent. -/
theorem C1_counterexample :
    ({ Platform.init 0 40 200 20 PType.crumbling with isCrumbling := true }).providesCollision
        = false ∧
    ((Player.init 0 0).handlePlatformCollisions
        [{ Platform.init 0 40 200 20 PType.crumbling with isCrumbling := true }]).y = -8 ∧
    ((Player.init 0 0).handlePlatformCollisions
        [{ Platform.init 0 40 200 20 PType.crumbling with isCrumbling := true }]).isGrounded
        = true ∧
    (Player.init 0 0).handlePlatformCollisions
        [{ Platform.init 0 40 200 20 PType.crumbling with isCrumbling := true }] ≠
      (Player.init 0 0).handlePlatformCollisions [] := by
  have heval : (Player.init 0 0).handlePlatformCollisions
      [{ Platform.init 0 40 200 20 PType.crumbling with isCrumbling := true }] =
      { Player.init 0 0 with y := -8, velocityY := 0, isGrounded := true
                           , canDoubleJump := false, hasDoubleJumped := false } := by
    norm_num [Player.handlePlatformCollisions, Player.resolvePlatform, checkCollision,
      Player.rect, Platform.rect, Player.init, Platform.init, min_def]
  refine ⟨rfl, ?_, ?_, ?_⟩
  · rw [heval]
  · rw [heval]
  · rw [heval]
    intro h
    have := congrArg Player.y h
    simp [Player.handlePlatformCollisions, Player.init] at this

/-- C1 (amended): once the crumbling flag is set, `providesCollision()`
reports false, the flag survives every further `updateCrumbling` until
`reset()` clears it, and during continuous occupancy the flag flips exactly
when the accumulated timer reaches `crumbleDelay` (999 ms of standing leave
the platform intact, 1000 ms crumble it); however the player's per-frame
platform collision resolution never consults `providesCollision` or the
flag, so the platform keeps taking part in it. -/
theorem C1_crumbling_flag_vs_collision :
    (∀ pl : Platform, pl.isCrumbling = true → pl.providesCollision = false) ∧
    (∀ (pl : Platform) (dt : ℚ) (player : Option Player), pl.isCrumbling = true →
       (pl.updateCrumbling dt player).isCrumbling = true) ∧
    (∀ (pl : Platform) (dt : ℚ) (p : Player),
       pl.isCrumbling = false → pl.isPlayerOn = true →
       checkCollision p.rect pl.rect = true →
       p.y + p.height ≤ pl.y + 10 → 0 ≤ p.velocityY →
       (pl.updateCrumbling dt (some p)).isPlayerOn = true ∧
       (pl.updateCrumbling dt (some p)).crumbleTimer = pl.crumbleTimer + dt ∧
       (pl.updateCrumbling dt (some p)).crumbleDelay = pl.crumbleDelay ∧
       (pl.updateCrumbling dt (some p)).rect = pl.rect ∧
       ((pl.updateCrumbling dt (some p)).isCrumbling = true ↔
          pl.crumbleDelay ≤ pl.crumbleTimer + dt)) ∧
    (∀ (p : Player) (pl : Platform) (b : Bool),
       p.handlePlatformCollisions [{ pl with isCrumbling := b }] =
         p.handlePlatformCollisions [pl]) ∧
    (∀ pl : Platform, pl.reset.isCrumbling = false) := by
  refine ⟨?_, ?_, ?_, ?_, ?_⟩
  · intro pl h
    simp [Platform.providesCollision, h]
  · intro pl dt player h
    cases player with
    | none => simp [Platform.updateCrumbling, h]
    | some p => simp [Platform.updateCrumbling, h]
  · intro pl dt p hcr hon hov hbot hvel
    simp only [Platform.rect] at hov
    by_cases ht : pl.crumbleDelay ≤ pl.crumbleTimer + dt <;>
      simp [Platform.updateCrumbling, Platform.rect, hcr, hon, hov, hbot, hvel, ht]
  · intro p pl b
    rfl
  · intro pl
    rfl

/-- Closed instance of `C1_crumbling_flag_vs_collision`: a crumbling
platform occupied with accumulated timer 983 ms updated by 16 ms (999 ms
total) is still intact; one more 16 ms occupied update crumbles it; a
crumbled platform reports no collision and `reset()` restores it. -/
theorem C1_crumbling_flag_vs_collision_witness :
    (({ Platform.init 0 48 200 20 PType.crumbling with isPlayerOn := true, crumbleTimer := 983
       }).updateCrumbling 16 (some (Player.init 0 10))).isCrumbling = false ∧
    ((({ Platform.init 0 48 200 20 PType.crumbling with isPlayerOn := true, crumbleTimer := 983
       }).updateCrumbling 16 (some (Player.init 0 10))).updateCrumbling 16
         (some (Player.init 0 10))).isCrumbling = true ∧
    ({ Platform.init 0 48 200 20 PType.crumbling with isCrumbling := true }).providesCollision
        = false ∧
    ({ Platform.init 0 48 200 20 PType.crumbling with isCrumbling := true }).reset.isCrumbling
        = false := by
  have h1 := C1_crumbling_flag_vs_collision.2.2.1
    { Platform.init 0 48 200 20 PType.crumbling with isPlayerOn := true, crumbleTimer := 983 }
    16 (Player.init 0 10) rfl rfl
    (by norm_num [checkCollision, Player.rect, Platform.rect, Player.init, Platform.init])
    (by norm_num [Player.init, Platform.init])
    (by norm_num [Player.init])
  have hfirst : (({ Platform.init 0 48 200 20 PType.crumbling with
      isPlayerOn := true, crumbleTimer := 983
      }).updateCrumbling 16 (some (Player.init 0 10))).isCrumbling = false := by
    rcases Bool.eq_false_or_eq_true (({ Platform.init 0 48 200 20 PType.crumbling with
        isPlayerOn := true, crumbleTimer := 983
        }).updateCrumbling 16 (some (Player.init 0 10))).isCrumbling with h | h
    · exfalso
      have := h1.2.2.2.2.mp h
      norm_num [Platform.init] at this
    · exact h
  have hyeq : (({ Platform.init 0 48 200 20 PType.crumbling with
      isPlayerOn := true, crumbleTimer := 983
      }).updateCrumbling 16 (some (Player.init 0 10))).y =
      ({ Platform.init 0 48 200 20 PType.crumbling with
        isPlayerOn := true, crumbleTimer := 983 } : Platform).y :=
    congrArg Rect.y h1.2.2.2.1
  have h2 := C1_crumbling_flag_vs_collision.2.2.1
    (({ Platform.init 0 48 200 20 PType.crumbling with isPlayerOn := true, crumbleTimer := 983
      }).updateCrumbling 16 (some (Player.init 0 10)))
    16 (Player.init 0 10) hfirst h1.1
    (by rw [h1.2.2.2.1]
        norm_num [checkCollision, Player.rect, Platform.rect, Player.init, Platform.init])
    (by rw [hyeq]; norm_num [Player.init, Platform.init])
    (by norm_num [Player.init])
  refine ⟨hfirst, ?_, C1_crumbling_flag_vs_collision.1 _ rfl,
          C1_crumbling_flag_vs_collision.2.2.2.2 _⟩
  refine h2.2.2.2.2.mpr ?_
  rw [h1.2.2.1, h1.2.1]
  norm_num [Platform.init]

/-- C2 (counterexample): the claim that landing on a bouncy platform during
a frame of the playing update sets the player's vertical velocity to
`-bounceForce` is false on the code: the playing update resolves player vs
platform collisions only through `Player.handlePlatformCollisions`
(`Game.updatePlaying` → `player.update`), which zeroes the vertical
velocity on every landing; a falling player landing on a bouncy platform
(bounceForce 20) ends the frame grounded with `velocityY = 0 ≠ -20`. -/
theorem C2_counterexample :
    (Platform.init (-50) 40 200 20 PType.bouncy).type = PType.bouncy ∧
    (Platform.init (-50) 40 200 20 PType.bouncy).bounceForce = 20 ∧
    (({ Player.init 0 0 with velocityY := 5 }).handlePlatformCollisions
        [Platform.init (-50) 40 200 20 PType.bouncy]).isGrounded = true ∧
    (({ Player.init 0 0 with velocityY := 5 }).handlePlatformCollisions
        [Platform.init (-50) 40 200 20 PType.bouncy]).velocityY = 0 ∧
    (0 : ℚ) ≠ -(Platform.init (-50) 40 200 20 PType.bouncy).bounceForce := by
  have heval : ({ Player.init 0 0 with velocityY := 5 }).handlePlatformCollisions
      [Platform.init (-50) 40 200 20 PType.bouncy] =
      { Player.init 0 0 with y := -8, velocityY := 0, isGrounded := true
                           , canDoubleJump := false, hasDoubleJumped := false } := by
    norm_num [Player.handlePlatformCollisions, Player.resolvePlatform, checkCollision,
      Player.rect, Platform.rect, Player.init, Platform.init, min_def]
  refine ⟨rfl, rfl, ?_, ?_, by norm_num [Platform.init]⟩
  · rw [heval]
  · rw [heval]

/-- C2 (amended): the bounce behavior lives in
`Platform.handlePlayerCollision`: on a top landing (overlap resolved
vertically, player above) on a bouncy platform it sets the player's
vertical velocity to `-bounceForce` instead of 0 while still counting as a
landing (`isGrounded` true, both double-jump flags reset); however this
method is never called from the playing update, whose platform collision
path (`Player.handlePlatformCollisions`) zeroes the vertical velocity on
every landing, as `C2_counterexample` shows. -/
theorem C2_bouncy_dead_path :
    ∀ (pl : Platform) (p : Player),
      pl.type = PType.bouncy →
      checkCollision pl.rect p.rect = true →
      ¬(min (p.x + p.width - pl.x) (pl.x + pl.width - p.x) <
          min (p.y + p.height - pl.y) (pl.y + pl.height - p.y)) →
      p.y < pl.y →
      (pl.handlePlayerCollision p).2.1.velocityY = -pl.bounceForce ∧
      (pl.handlePlayerCollision p).2.1.isGrounded = true ∧
      (pl.handlePlayerCollision p).2.1.canDoubleJump = false ∧
      (pl.handlePlayerCollision p).2.1.hasDoubleJumped = false ∧
      (pl.handlePlayerCollision p).2.2 = some Platform.Side.top := by
  intro pl p hty hov hax hy
  simp [Platform.handlePlayerCollision, hty, hov, hax, hy]

/-- Closed instance of `C2_bouncy_dead_path`: the falling player over the
bouncy platform of `C2_counterexample`, pushed through
`Platform.handlePlayerCollision` instead, leaves with velocityY = -20,
grounded, and cleared double-jump flags. -/
theorem C2_bouncy_dead_path_witness :
    ((Platform.init (-50) 40 200 20 PType.bouncy).handlePlayerCollision
        { Player.init 0 0 with velocityY := 5 }).2.1.velocityY = -20 ∧
    ((Platform.init (-50) 40 200 20 PType.bouncy).handlePlayerCollision
        { Player.init 0 0 with velocityY := 5 }).2.1.isGrounded = true ∧
    ((Platform.init (-50) 40 200 20 PType.bouncy).handlePlayerCollision
        { Player.init 0 0 with velocityY := 5 }).2.1.canDoubleJump = false ∧
    ((Platform.init (-50) 40 200 20 PType.bouncy).handlePlayerCollision
        { Player.init 0 0 with velocityY := 5 }).2.1.hasDoubleJumped = false := by
  have h := C2_bouncy_dead_path (Platform.init (-50) 40 200 20 PType.bouncy)
    { Player.init 0 0 with velocityY := 5 } rfl
    (by norm_num [checkCollision, Player.rect, Platform.rect, Player.init, Platform.init])
    (by norm_num [Player.init, Platform.init, min_def])
    (by norm_num [Player.init, Platform.init])
  exact ⟨by rw [h.1]; rfl, h.2.1, h.2.2.1, h.2.2.2.1⟩

/-- C10: `Player.heal` has no dead-state guard: healing a player at health 0
(for whom `isDead()` is true) by a positive amount yields
`min maxHealth amount > 0`, after which `isDead()` is false; and in the
playing update the collectible pass of `Game.handleCollisions` (which heals
on a health pickup) runs before `Game.checkGameConditions`, so a dead
player overlapping an uncollected health collectible ends the frame alive,
with lives and game state untouched by the death check. -/
theorem C10_heal_revives_dead_player :
    (∀ (p : Player) (a : ℚ), p.health = 0 → 0 < a → 0 < p.maxHealth →
       p.isDead = true ∧
       (p.heal a).health = min p.maxHealth a ∧
       0 < (p.heal a).health ∧
       (p.heal a).isDead = false) ∧
    (∀ (g : Game) (c : Collectible) (now : ℚ),
       g.player.health = 0 → 0 < g.player.maxHealth →
       g.level.enemies = [] → g.level.collectibles = [c] →
       c.collected = false → c.type = CType.health → 0 < c.value →
       checkCollision c.rect g.player.rect = true →
       g.level.completed = false → g.level.timeLimit = none →
       (g.collisionsThenConditions now).player.health = min g.player.maxHealth c.value ∧
       (g.collisionsThenConditions now).player.isDead = false ∧
       (g.collisionsThenConditions now).lives = g.lives ∧
       (g.collisionsThenConditions now).state = g.state) := by
  constructor
  · intro p a hh ha hmax
    have hpos : 0 < min p.maxHealth a := lt_min hmax ha
    refine ⟨by simp [Player.isDead, hh], by simp [Player.heal, hh], ?_, ?_⟩
    · simpa [Player.heal, hh] using hpos
    · simp only [Player.isDead, Player.heal, hh, zero_add, decide_eq_false_iff_not, not_le]
      exact hpos
  · intro g c now hh hmax hen hcoll hc hct hcv hov hcompl htl
    have hhealed : (g.player.heal c.value).health = min g.player.maxHealth c.value := by
      simp [Player.heal, hh]
    have hpos : 0 < (g.player.heal c.value).health := by
      rw [hhealed]; exact lt_min hmax hcv
    have hnotdead : (g.player.heal c.value).isDead = false := by
      simp only [Player.isDead, decide_eq_false_iff_not, not_le]
      exact hpos
    have hstep : (g.handleCollisions now).player = g.player.heal c.value ∧
        (g.handleCollisions now).lives = g.lives ∧
        (g.handleCollisions now).state = g.state ∧
        (g.handleCollisions now).level.completed = g.level.completed ∧
        (g.handleCollisions now).level.timeLimit = g.level.timeLimit := by
      simp [Game.handleCollisions, hen, hcoll, Collectible.checkPlayerCollision, hc, hov,
            Collectible.collect, Game.handleCollectibleCollection,
            Collectible.getCollectionEffect, hct]
    have hcond : (g.handleCollisions now).checkGameConditions now = g.handleCollisions now := by
      simp [Game.checkGameConditions, hstep.1, hnotdead, hstep.2.2.2.1, hcompl,
            Level.isTimeUp, hstep.2.2.2.2, htl]
    refine ⟨?_, ?_, ?_, ?_⟩
    · rw [Game.collisionsThenConditions, hcond, hstep.1, hhealed]
    · rw [Game.collisionsThenConditions, hcond, hstep.1, hnotdead]
    · rw [Game.collisionsThenConditions, hcond, hstep.2.1]
    · rw [Game.collisionsThenConditions, hcond, hstep.2.2.1]

/-- Closed instance of `C10_heal_revives_dead_player`: a dead player (health
0) overlapping a fresh health collectible (value 25), with 3 lives in the
playing state and no time limit, ends the collision-then-conditions frame
tail at health 25, alive, still with 3 lives in the playing state. -/
theorem C10_heal_revives_dead_player_witness :
    (({ player := { Player.init 0 0 with health := 0 }, lives := 3, score := 0
      , totalScore := 0, state := GState.playing
      , level := { enemies := [], collectibles := [Collectible.init 0 0 CType.health 25]
                 , completed := false, timeLimit := none, startTime := 0 } } :
        Game).collisionsThenConditions 0).player.health = 25 ∧
    (({ player := { Player.init 0 0 with health := 0 }, lives := 3, score := 0
      , totalScore := 0, state := GState.playing
      , level := { enemies := [], collectibles := [Collectible.init 0 0 CType.health 25]
                 , completed := false, timeLimit := none, startTime := 0 } } :
        Game).collisionsThenConditions 0).player.isDead = false ∧
    (({ player := { Player.init 0 0 with health := 0 }, lives := 3, score := 0
      , totalScore := 0, state := GState.playing
      , level := { enemies := [], collectibles := [Collectible.init 0 0 CType.health 25]
                 , completed := false, timeLimit := none, startTime := 0 } } :
        Game).collisionsThenConditions 0).lives = 3 ∧
    (({ player := { Player.init 0 0 with health := 0 }, lives := 3, score := 0
      , totalScore := 0, state := GState.playing
      , level := { enemies := [], collectibles := [Collectible.init 0 0 CType.health 25]
                 , completed := false, timeLimit := none, startTime := 0 } } :
        Game).collisionsThenConditions 0).state = GState.playing := by
  have h := C10_heal_revives_dead_player.2
    { player := { Player.init 0 0 with health := 0 }, lives := 3, score := 0
    , totalScore := 0, state := GState.playing
    , level := { enemies := [], collectibles := [Collectible.init 0 0 CType.health 25]
               , completed := false, timeLimit := none, startTime := 0 } }
    (Collectible.init 0 0 CType.health 25) 0
    rfl (by norm_num [Player.init]) rfl rfl rfl rfl
    (by norm_num [Collectible.init, Collectible.typeValue])
    (by norm_num [checkCollision, Collectible.rect, Player.rect, Collectible.init, Player.init])
    rfl rfl
  refine ⟨?_, h.2.1, h.2.2.1, h.2.2.2⟩
  rw [h.1]
  norm_num [Player.init, Collectible.init, Collectible.typeValue]
